import Mathlib

/-!
Verification development for the challenge lifecycle and statistics
aggregation pipeline of the whats-the-chance game backend.

The Python backend is shallowly embedded: Firestore collections become
finite maps (`String → Option Doc`), `datetime` values become abstract
`Nat` ticks, Python floats become exact rationals (`Rat`), fallible
endpoint handlers return `Except ApiError`, and every handler threads the
document store explicitly.  Each definition mirrors one function of the
source (`app/routers/challenges.py`, `app/services/game_stats_service.py`,
`app/schemas/challenge.py`).
-/

namespace WhatsTheChance

/-- Error taxonomy of the routers: 404, 403, and 400/422 validation
failures (the detail string is carried along). -/
inductive ApiError where
  | notFound : ApiError
  | forbidden : ApiError
  | badRequest : String → ApiError
deriving Repr, DecidableEq

/-- A persisted challenge document (collection `challenges`).
`numbers` is the insertion-ordered dict of user id to submitted number. -/
structure ChallengeDoc where
  description : String
  from_user : String
  to_user : String
  status : String
  range : Option (Int × Int) := none
  numbers : Option (List (String × Int)) := none
  result : Option String := none
  created_at : Nat
  updated_at : Nat
  completed_at : Option Nat := none
deriving Repr, DecidableEq

/-- A persisted challenge-result record (collection `challenge_results`),
mirroring `ChallengeResult` of `app/schemas/game_stats.py`. -/
structure ChallengeResultRec where
  challenge_id : String
  from_user : String
  to_user : String
  description : String
  range_min : Int
  range_max : Int
  from_user_number : Int
  to_user_number : Int
  result : String
  winner : Option String := none
  created_at : Nat
  completed_at : Nat
  response_time_from_user : Option Rat := none
  response_time_to_user : Option Rat := none
deriving Repr, DecidableEq

/-- Per-user running statistics (collection `user_game_stats`). -/
structure UserStatsDoc where
  user_id : String
  total_challenges : Nat
  challenges_created : Nat
  challenges_received : Nat
  matches_won : Nat
  matches_lost : Nat
  win_rate : Rat
  average_response_time : Option Rat
  fastest_response_time : Option Rat
  favorite_number : Option Int
  favorite_range_min : Option Int
  favorite_range_max : Option Int
  last_active : Nat
  created_at : Nat
  updated_at : Nat
deriving Repr, DecidableEq

/-- Per-number statistics (collection `number_stats`, keyed by the number). -/
structure NumberStatsDoc where
  number : Int
  times_selected : Nat
  success_rate : Rat
  last_selected : Option Nat
deriving Repr, DecidableEq

/-- Per-range statistics (collection `range_stats`, keyed by
the string `min_max`). -/
structure RangeStatsDoc where
  range_min : Int
  range_max : Int
  times_used : Nat
  success_rate : Rat
  average_numbers_in_range : Rat
deriving Repr, DecidableEq

/-- Global singleton statistics (collection `global_game_stats`, doc id
`main`).  The top-number and top-range lists of the schema are never
written by the aggregator, so they are kept as opaque counters here is
unnecessary; they stay as raw lists of docs. -/
structure GlobalStatsDoc where
  total_challenges : Nat
  total_matches : Nat
  total_participants : Nat
  most_used_numbers : List NumberStatsDoc
  least_used_numbers : List NumberStatsDoc
  most_used_ranges : List RangeStatsDoc
  overall_success_rate : Rat
  average_response_time : Rat
  challenges_today : Nat
  challenges_this_week : Nat
  challenges_this_month : Nat
  last_updated : Nat
deriving Repr, DecidableEq

/-- Per-player interaction counters (collection `player_interactions`). -/
structure PlayerInteractionDoc where
  user_id : String
  username : Option String
  first_name : Option String
  last_name : Option String
  total_challenges_received : Nat
  total_challenges_sent : Nat
  total_interactions : Nat
  last_interaction : Option Nat
deriving Repr, DecidableEq

/-- Symmetric per-pair counters (collection `player_pairs`, keyed by the
sorted pair of ids joined by an underscore). -/
structure PlayerPairDoc where
  user1_id : String
  user1_username : Option String
  user2_id : String
  user2_username : Option String
  total_challenges_between : Nat
  challenges_from_user1 : Nat
  challenges_from_user2 : Nat
  matches_between : Nat
  success_rate : Rat
  last_challenge : Option Nat
deriving Repr, DecidableEq

/-- A stored number-selection record (collection `number_selections`). -/
structure SelectionRec where
  user_id : String
  number : Int
  selected_at : Nat
  challenge_id : String
  range_min : Int
  range_max : Int
deriving Repr, DecidableEq

/-- The document store: one finite map per Firestore collection touched by
the challenge lifecycle and the statistics aggregator. -/
structure Store where
  challenges : String → Option ChallengeDoc
  challengeResults : String → Option ChallengeResultRec
  numberSelections : String → Option SelectionRec
  userStats : String → Option UserStatsDoc
  globalStats : Option GlobalStatsDoc
  numberStats : Int → Option NumberStatsDoc
  rangeStats : String → Option RangeStatsDoc
  playerInteractions : String → Option PlayerInteractionDoc
  playerPairs : String → Option PlayerPairDoc

/-- A store with every collection empty. -/
def emptyStore : Store :=
  { challenges := fun _ => none
    challengeResults := fun _ => none
    numberSelections := fun _ => none
    userStats := fun _ => none
    globalStats := none
    numberStats := fun _ => none
    rangeStats := fun _ => none
    playerInteractions := fun _ => none
    playerPairs := fun _ => none }

/-- The values the code derives from `datetime.utcnow()` at aggregation
time: the current tick and the UTC midnight / week-start / month-start
ticks computed from it. -/
structure Clock where
  now : Nat
  todayStart : Nat
  weekStart : Nat
  monthStart : Nat

/-! ## Router: respond_to_challenge -/

/-- The `ChallengeRange` pydantic validators: both bounds are declared
`ge=1, le=100`, and `validate_max_greater_than_min` demands `max > min`. -/
def challengeRangeValid (mn mx : Int) : Bool :=
  1 ≤ mn && mn ≤ 100 && 1 ≤ mx && mx ≤ 100 && mn < mx

/-- A parsed `ChallengeResponse` request body. -/
structure ChallengeResponseReq where
  range : Int × Int
  accepted : Bool
deriving Repr, DecidableEq

/-- Pydantic parsing of a `ChallengeResponse` body.  Both `range` and
`accepted` are declared with `Field(...)`, i.e. required; a missing field
is a validation error, and a present range runs the `ChallengeRange`
validators. -/
def parseChallengeResponse (rangeField : Option (Int × Int))
    (acceptedField : Option Bool) : Except ApiError ChallengeResponseReq :=
  match rangeField, acceptedField with
  | none, _ => .error (.badRequest "field required: range")
  | _, none => .error (.badRequest "field required: accepted")
  | some (mn, mx), some a =>
    if challengeRangeValid mn mx then .ok { range := (mn, mx), accepted := a }
    else .error (.badRequest "invalid range")

/-- `respond_to_challenge` (`challenges.py`): 404 when the challenge is
missing, 403 unless the caller is `to_user`, 400 unless the status is
`pending`; otherwise the status becomes `accepted`/`rejected` and the
range is stored only on accept. -/
def respondToChallenge (s : Store) (challenge_id : String)
    (req : ChallengeResponseReq) (uid : String) (now : Nat) :
    Store × Except ApiError ChallengeDoc :=
  match s.challenges challenge_id with
  | none => (s, .error .notFound)
  | some ch =>
    if ch.to_user ≠ uid then (s, .error .forbidden)
    else if ch.status ≠ "pending" then
      (s, .error (.badRequest "Challenge is no longer pending"))
    else
      let ch2 : ChallengeDoc :=
        { ch with
          status := if req.accepted then "accepted" else "rejected"
          updated_at := now
          range := if req.accepted then some req.range else ch.range }
      ({ s with challenges := fun k => if k = challenge_id then some ch2 else s.challenges k },
       .ok ch2)

/-! ## Router: resolve_challenge -/

/-- Python set equality `set(numbers.keys()) == \x7bfrom_user, to_user\x7d`,
expressed on the key list of the numbers dict. -/
def keySetMatches (ks : List String) (a b : String) : Bool :=
  ks.all (fun k => k == a || k == b) && ks.contains a && ks.contains b

/-- The response payload of a successful resolve. -/
structure ResolveResponse where
  challenge_id : String
  result : String
  numbers : List (String × Int)
  resolved_at : Nat
deriving Repr, DecidableEq

/-- `resolve_challenge` (`challenges.py`): 404 when missing, 403 unless
the caller participates, 400 unless the numbers dict has exactly two
entries whose key set is exactly the two participants; then the result is
`match` iff the two dict values are equal, and the challenge document is
overwritten with status `completed`.  No check of the prior status is
performed, and no statistics update is triggered. -/
def resolveChallenge (s : Store) (challenge_id : String)
    (numbers : List (String × Int)) (uid : String) (now : Nat) :
    Store × Except ApiError ResolveResponse :=
  match s.challenges challenge_id with
  | none => (s, .error .notFound)
  | some ch =>
    if ch.from_user ≠ uid ∧ ch.to_user ≠ uid then (s, .error .forbidden)
    else if numbers.length ≠ 2 then
      (s, .error (.badRequest "Numbers must be provided for both users"))
    else if ¬ keySetMatches (numbers.map Prod.fst) ch.from_user ch.to_user then
      (s, .error (.badRequest "Numbers must be provided for both challenge participants"))
    else
      let vals := numbers.map Prod.snd
      let is_match := vals.getD 0 0 == vals.getD 1 0
      let res := if is_match then "match" else "no_match"
      let ch2 : ChallengeDoc :=
        { ch with
          status := "completed"
          numbers := some numbers
          result := some res
          completed_at := some now
          updated_at := now }
      ({ s with challenges := fun k => if k = challenge_id then some ch2 else s.challenges k },
       .ok { challenge_id := challenge_id, result := res, numbers := numbers, resolved_at := now })

/-! ## Router: get_user_challenge_stats -/

/-- The `ChallengeStats` response schema. -/
structure ChallengeStatsResp where
  total_challenges : Nat
  pending_challenges : Nat
  active_challenges : Nat
  completed_challenges : Nat
  matches_won : Nat
  matches_lost : Nat
deriving Repr, DecidableEq

/-- `get_user_challenge_stats` (`challenges.py`): queries the challenges
collection with `from_user == user_id` and counts statuses and results of
the query hits only. -/
def getUserChallengeStats (allChallenges : List ChallengeDoc)
    (user_id : String) : ChallengeStatsResp :=
  let challenges := allChallenges.filter (fun c => c.from_user == user_id)
  { total_challenges := challenges.length
    pending_challenges := (challenges.filter (fun c => c.status == "pending")).length
    active_challenges := (challenges.filter (fun c => c.status == "active")).length
    completed_challenges := (challenges.filter (fun c => c.status == "completed")).length
    matches_won := (challenges.filter (fun c => c.result == some "match")).length
    matches_lost := (challenges.filter (fun c => c.result == some "no_match")).length }

/-! ## GameStatsService -/

/-- The set of collections whose document-store operations raise in a
given run: the failure-injection parameter used to state the
failure-isolation properties of the aggregator. -/
abbrev FailSet := List String

/-- Does an operation on collection `c` raise in this run? -/
def opFails (f : FailSet) (c : String) : Bool := f.contains c

/-- The fresh per-user stats document built by
`_update_single_user_stats` when none exists. -/
def newUserStats (user_id : String) (now : Nat) : UserStatsDoc :=
  { user_id := user_id
    total_challenges := 0
    challenges_created := 0
    challenges_received := 0
    matches_won := 0
    matches_lost := 0
    win_rate := 0
    average_response_time := none
    fastest_response_time := none
    favorite_number := none
    favorite_range_min := none
    favorite_range_max := none
    last_active := now
    created_at := now
    updated_at := now }

/-- The response time the code picks for this participant.  Python
truthiness is preserved: a response time of `0.0` is falsy, so it is
treated exactly like an absent one. -/
def pickedResponseTime (r : ChallengeResultRec) (is_creator : Bool) : Option Rat :=
  if is_creator then
    match r.response_time_from_user with
    | some t => if t ≠ 0 then some t else none
    | none => none
  else
    match r.response_time_to_user with
    | some t => if t ≠ 0 then some t else none
    | none => none

/-- The response-time stage of `_update_single_user_stats`: fold the
picked response time (if any) into the running average — using the
post-increment `total_challenges` as the divisor, as the code does — and
into the running minimum. -/
def stepUserRespTimes (d : UserStatsDoc) (rt : Option Rat) : UserStatsDoc :=
  match rt with
  | none => d
  | some t =>
    let d5a :=
      match d.average_response_time with
      | none => { d with average_response_time := some t }
      | some avg =>
        let n : Rat := (d.total_challenges : Rat)
        { d with average_response_time := some ((avg * (n - 1) + t) / n) }
    match d5a.fastest_response_time with
    | none => { d5a with fastest_response_time := some t }
    | some fr => if t < fr then { d5a with fastest_response_time := some t } else d5a

/-- The in-memory mutation `_update_single_user_stats` performs on one
user stats document.  `matches_won` increments only when the result is a
match and the record designates this user as winner; otherwise a match
increments `matches_lost`.  `win_rate` is recomputed as
`won / (won + lost)` whenever that denominator is positive. -/
def stepUserStats (d : UserStatsDoc) (r : ChallengeResultRec)
    (user_id : String) (is_creator : Bool) (now : Nat) : UserStatsDoc :=
  let d1 := { d with total_challenges := d.total_challenges + 1 }
  let d2 :=
    if is_creator then { d1 with challenges_created := d1.challenges_created + 1 }
    else { d1 with challenges_received := d1.challenges_received + 1 }
  let d3 :=
    if r.result = "match" then
      if r.winner = some user_id then { d2 with matches_won := d2.matches_won + 1 }
      else { d2 with matches_lost := d2.matches_lost + 1 }
    else d2
  let total_matches := d3.matches_won + d3.matches_lost
  let d4 :=
    if 0 < total_matches then
      { d3 with win_rate := (d3.matches_won : Rat) / (total_matches : Rat) }
    else d3
  let d5 := stepUserRespTimes d4 (pickedResponseTime r is_creator)
  { d5 with last_active := now, updated_at := now }

/-- `_update_single_user_stats` on the `user_game_stats` map:
fetch-or-default, mutate, write back under the user id; its own
try/except swallows a store failure, leaving the map unchanged. -/
def updateSingleUserStats (f : FailSet) (m : String → Option UserStatsDoc)
    (user_id : String) (r : ChallengeResultRec) (is_creator : Bool)
    (now : Nat) : String → Option UserStatsDoc :=
  if opFails f "user_game_stats" then m
  else
    let d0 := (m user_id).getD (newUserStats user_id now)
    let d := stepUserStats d0 r user_id is_creator now
    fun k => if k = user_id then some d else m k

/-- `_update_user_stats`: update the creator, then the recipient. -/
def updateUserStats (f : FailSet) (m : String → Option UserStatsDoc)
    (r : ChallengeResultRec) (now : Nat) : String → Option UserStatsDoc :=
  updateSingleUserStats f
    (updateSingleUserStats f m r.from_user r true now)
    r.to_user r false now

/-- The fresh global stats document built by `_update_global_stats` when
none exists. -/
def newGlobalStats (now : Nat) : GlobalStatsDoc :=
  { total_challenges := 0
    total_matches := 0
    total_participants := 0
    most_used_numbers := []
    least_used_numbers := []
    most_used_ranges := []
    overall_success_rate := 0
    average_response_time := 0
    challenges_today := 0
    challenges_this_week := 0
    challenges_this_month := 0
    last_updated := now }

/-- The in-memory mutation of the global stats document: increment
totals, recompute the overall success rate, and bucket the result by its
`created_at` against the update-time day/week/month boundaries. -/
def stepGlobalStats (g : GlobalStatsDoc) (r : ChallengeResultRec)
    (clk : Clock) : GlobalStatsDoc :=
  let g1 := { g with total_challenges := g.total_challenges + 1 }
  let g2 :=
    if r.result = "match" then { g1 with total_matches := g1.total_matches + 1 }
    else g1
  let g3 :=
    if 0 < g2.total_challenges then
      { g2 with overall_success_rate := (g2.total_matches : Rat) / (g2.total_challenges : Rat) }
    else g2
  let g4 :=
    if clk.todayStart ≤ r.created_at then
      { g3 with challenges_today := g3.challenges_today + 1 }
    else g3
  let g5 :=
    if clk.weekStart ≤ r.created_at then
      { g4 with challenges_this_week := g4.challenges_this_week + 1 }
    else g4
  let g6 :=
    if clk.monthStart ≤ r.created_at then
      { g5 with challenges_this_month := g5.challenges_this_month + 1 }
    else g5
  { g6 with last_updated := clk.now }

/-- Fetch-or-default of a `number_stats` document, as the loop body of
`_update_number_stats` performs it. -/
def numberDocOr (m : Int → Option NumberStatsDoc) (n : Int) : NumberStatsDoc :=
  (m n).getD
    { number := n, times_selected := 0, success_rate := 0, last_selected := none }

/-- One pass of the `_update_number_stats` loop body for one selected
number: fetch-or-default, increment `times_selected`, stamp
`last_selected`; `success_rate` is read back and written unchanged (the
code never recomputes it). -/
def stepNumberStats (m : Int → Option NumberStatsDoc) (n : Int)
    (completed_at : Nat) : Int → Option NumberStatsDoc :=
  let d0 := numberDocOr m n
  let d := { d0 with times_selected := d0.times_selected + 1,
                     last_selected := some completed_at }
  fun k => if k = n then some d else m k

/-- `_update_number_stats` on the `number_stats` map: iterate the loop
body over the two selected numbers, creator first; its try/except
swallows a store failure, leaving the map unchanged. -/
def numberStatsUpdate (f : FailSet) (m : Int → Option NumberStatsDoc)
    (r : ChallengeResultRec) : Int → Option NumberStatsDoc :=
  if opFails f "number_stats" then m
  else
    stepNumberStats (stepNumberStats m r.from_user_number r.completed_at)
      r.to_user_number r.completed_at

/-- `_update_number_stats` as a store transformer (it touches only the
`number_stats` collection). -/
def updateNumberStats (f : FailSet) (s : Store) (r : ChallengeResultRec) : Store :=
  { s with numberStats := numberStatsUpdate f s.numberStats r }

/-- The `range_stats` document key, Python `f-string` of the two bounds
joined by an underscore. -/
def rangeKey (mn mx : Int) : String := toString mn ++ "_" ++ toString mx

/-- `_update_range_stats` on the `range_stats` map: increment
`times_used` and fold the fraction of the two submitted numbers lying
inside the declared range into a running average keyed by `times_used`. -/
def rangeStatsUpdate (f : FailSet) (m : String → Option RangeStatsDoc)
    (r : ChallengeResultRec) : String → Option RangeStatsDoc :=
  if opFails f "range_stats" then m
  else
    let key := rangeKey r.range_min r.range_max
    let d0 := (m key).getD
      { range_min := r.range_min, range_max := r.range_max, times_used := 0
        success_rate := 0, average_numbers_in_range := 0 }
    let d1 := { d0 with times_used := d0.times_used + 1 }
    let inCnt := (([r.from_user_number, r.to_user_number]).filter
      (fun n => decide (r.range_min ≤ n ∧ n ≤ r.range_max))).length
    let avg : Rat := (inCnt : Rat) / 2
    let d2 :=
      if d1.times_used = 1 then { d1 with average_numbers_in_range := avg }
      else
        { d1 with average_numbers_in_range :=
            (d1.average_numbers_in_range * ((d1.times_used : Rat) - 1) + avg)
              / (d1.times_used : Rat) }
    fun k => if k = key then some d2 else m k

/-- `_update_range_stats` as a store transformer (it touches only the
`range_stats` collection). -/
def updateRangeStats (f : FailSet) (s : Store) (r : ChallengeResultRec) : Store :=
  { s with rangeStats := rangeStatsUpdate f s.rangeStats r }

/-- `_update_single_player_interaction` on the `player_interactions` map. -/
def stepInteraction (m : String → Option PlayerInteractionDoc)
    (user_id : String) (r : ChallengeResultRec) (is_sender : Bool) :
    String → Option PlayerInteractionDoc :=
  let d0 := (m user_id).getD
    { user_id := user_id, username := none, first_name := none, last_name := none
      total_challenges_received := 0, total_challenges_sent := 0
      total_interactions := 0, last_interaction := none }
  let d1 :=
    if is_sender then { d0 with total_challenges_sent := d0.total_challenges_sent + 1 }
    else { d0 with total_challenges_received := d0.total_challenges_received + 1 }
  let d2 := { d1 with
    total_interactions := d1.total_challenges_sent + d1.total_challenges_received,
    last_interaction := some r.completed_at }
  fun k => if k = user_id then some d2 else m k

/-- `_update_player_interactions` on the `player_interactions` map:
sender first, then receiver; a store failure is swallowed by the
surrounding try/except, leaving the map unchanged. -/
def playerInteractionsUpdate (f : FailSet)
    (m : String → Option PlayerInteractionDoc) (r : ChallengeResultRec) :
    String → Option PlayerInteractionDoc :=
  if opFails f "player_interactions" then m
  else stepInteraction (stepInteraction m r.from_user r true) r.to_user r false

/-- `_update_player_interactions` as a store transformer (it touches
only the `player_interactions` collection). -/
def updatePlayerInteractions (f : FailSet) (s : Store)
    (r : ChallengeResultRec) : Store :=
  { s with playerInteractions := playerInteractionsUpdate f s.playerInteractions r }

/-- The `player_pairs` document key: the two participant ids sorted
lexicographically (Python `min`/`max` on `str`) and joined by an
underscore. -/
def pairKey (a b : String) : String := min a b ++ "_" ++ max a b

/-- `_update_player_pairs` on the `player_pairs` map: fetch-or-default
the sorted-pair record, increment the total and the per-initiator
sub-counter, count matches, recompute the success rate, and stamp
`last_challenge`. -/
def playerPairsUpdate (f : FailSet) (m : String → Option PlayerPairDoc)
    (r : ChallengeResultRec) : String → Option PlayerPairDoc :=
  if opFails f "player_pairs" then m
  else
    let user1 := min r.from_user r.to_user
    let user2 := max r.from_user r.to_user
    let key := user1 ++ "_" ++ user2
    let d0 := (m key).getD
      { user1_id := user1, user1_username := none
        user2_id := user2, user2_username := none
        total_challenges_between := 0, challenges_from_user1 := 0
        challenges_from_user2 := 0, matches_between := 0
        success_rate := 0, last_challenge := none }
    let d1 := { d0 with total_challenges_between := d0.total_challenges_between + 1 }
    let d2 :=
      if r.from_user = user1 then
        { d1 with challenges_from_user1 := d1.challenges_from_user1 + 1 }
      else { d1 with challenges_from_user2 := d1.challenges_from_user2 + 1 }
    let d3 :=
      if r.result = "match" then
        { d2 with matches_between := d2.matches_between + 1 }
      else d2
    let d4 :=
      if 0 < d3.total_challenges_between then
        { d3 with success_rate :=
            (d3.matches_between : Rat) / (d3.total_challenges_between : Rat) }
      else d3
    let d5 := { d4 with last_challenge := some r.completed_at }
    fun k => if k = key then some d5 else m k

/-- `_update_player_pairs` as a store transformer (it touches only the
`player_pairs` collection). -/
def updatePlayerPairs (f : FailSet) (s : Store) (r : ChallengeResultRec) : Store :=
  { s with playerPairs := playerPairsUpdate f s.playerPairs r }

/-- `_update_global_stats`: read-modify-write of the `main` singleton,
followed — inside the same try block — by the number, range,
player-interaction and player-pair updates.  A failing global-stats
read/write jumps to the except handler and skips all four nested
updates. -/
def updateGlobalStats (f : FailSet) (s : Store) (r : ChallengeResultRec)
    (clk : Clock) : Store :=
  if opFails f "global_game_stats" then s
  else
    let g0 := s.globalStats.getD (newGlobalStats clk.now)
    let s1 := { s with globalStats := some (stepGlobalStats g0 r clk) }
    let s2 := { s1 with numberStats := numberStatsUpdate f s1.numberStats r }
    let s3 := { s2 with rangeStats := rangeStatsUpdate f s2.rangeStats r }
    let s4 := { s3 with playerInteractions :=
        playerInteractionsUpdate f s3.playerInteractions r }
    { s4 with playerPairs := playerPairsUpdate f s4.playerPairs r }

/-- `_store_number_selections` on the `number_selections` map: persist
one selection record per participant under derived ids; failures
swallowed. -/
def numberSelectionsUpdate (f : FailSet) (m : String → Option SelectionRec)
    (r : ChallengeResultRec) : String → Option SelectionRec :=
  if opFails f "number_selections" then m
  else
    let fromSel : SelectionRec :=
      { user_id := r.from_user, number := r.from_user_number
        selected_at := r.completed_at, challenge_id := r.challenge_id
        range_min := r.range_min, range_max := r.range_max }
    let toSel : SelectionRec :=
      { user_id := r.to_user, number := r.to_user_number
        selected_at := r.completed_at, challenge_id := r.challenge_id
        range_min := r.range_min, range_max := r.range_max }
    let k1 := r.challenge_id ++ "_from"
    let k2 := r.challenge_id ++ "_to"
    fun k =>
      if k = k2 then some toSel
      else if k = k1 then some fromSel
      else m k

/-- `GameStatsService.create_challenge_result`: persist the result
record, then run the selection store and the user and global stats
updates.  A failure writing the result record aborts everything and
returns `false`; later failures are swallowed by the nested handlers and
the call still returns `true`. -/
def createChallengeResult (f : FailSet) (s : Store) (r : ChallengeResultRec)
    (clk : Clock) : Store × Bool :=
  if opFails f "challenge_results" then (s, false)
  else
    let s1 := { s with challengeResults := fun k =>
        if k = r.challenge_id then some r else s.challengeResults k }
    let s2 := { s1 with numberSelections :=
        numberSelectionsUpdate f s1.numberSelections r }
    let s3 := { s2 with userStats := updateUserStats f s2.userStats r clk.now }
    let s4 := updateGlobalStats f s3 r clk
    (s4, true)

/-- `GameStatsService.get_user_stats`: a pure lookup. -/
def getUserStats (s : Store) (user_id : String) : Option UserStatsDoc :=
  s.userStats user_id

/-! ## Derived notions and concrete inputs used by the theorems -/

/-- Sequential processing of a list of finalized results by the
aggregator, with no injected failures. -/
def processResults (s : Store) (clk : Clock)
    (rs : List ChallengeResultRec) : Store :=
  rs.foldl (fun s r => (createChallengeResult [] s r clk).1) s

/-- The number of processed results that user `U` won: result `match`
with `U` designated winner. -/
def winsOf (U : String) (rs : List ChallengeResultRec) : Nat :=
  (rs.filter (fun r => r.result == "match" && r.winner == some U)).length

/-- The number of processed matches that user `U` did not win (the code
counts these as losses for `U`). -/
def lossesOf (U : String) (rs : List ChallengeResultRec) : Nat :=
  (rs.filter (fun r => r.result == "match" && !(r.winner == some U))).length

/-- `a / (a + b)` over the rationals (with the 0/0 = 0 convention of
`Rat` division, matching the untouched initial value 0.0). -/
def rateOf (a b : Nat) : Rat := (a : Rat) / ((a + b : Nat) : Rat)

/-- A rejected challenge between alice and bob. -/
def chRejected : ChallengeDoc :=
  { description := "d", from_user := "alice", to_user := "bob",
    status := "rejected", created_at := 0, updated_at := 0 }

/-- The same challenge while still pending. -/
def chPending : ChallengeDoc := { chRejected with status := "pending" }

/-- The same challenge after acceptance with range 1..10. -/
def chAccepted : ChallengeDoc :=
  { chRejected with status := "accepted", range := some (1, 10) }

/-- The same challenge already completed. -/
def chCompleted : ChallengeDoc := { chRejected with status := "completed" }

/-- A store holding a single challenge document. -/
def storeWith (cid : String) (ch : ChallengeDoc) : Store :=
  { emptyStore with challenges := fun k => if k = cid then some ch else none }

/-- An accept response carrying range 1..10. -/
def reqAccept : ChallengeResponseReq := { range := (1, 10), accepted := true }

/-- A finalized matching result (both picked 5, alice designated
winner). -/
def rMatch : ChallengeResultRec :=
  { challenge_id := "c1", from_user := "alice", to_user := "bob",
    description := "d", range_min := 1, range_max := 10,
    from_user_number := 5, to_user_number := 5, result := "match",
    winner := some "alice", created_at := 3, completed_at := 7 }

/-- A finalized non-matching result between the same users. -/
def rNoMatch : ChallengeResultRec :=
  { rMatch with
    challenge_id := "c2"
    from_user_number := 4
    result := "no_match"
    winner := none }

/-- A concrete clock for aggregation runs. -/
def clk1 : Clock := { now := 8, todayStart := 2, weekStart := 1, monthStart := 0 }

/-- `rMatch` as initiated by the other participant. -/
def rMatchSwap : ChallengeResultRec :=
  { rMatch with from_user := "bob", to_user := "alice" }

/-- Did the call succeed (no HTTP error raised)? -/
def exceptOk {ε α : Type} : Except ε α → Bool
  | .ok _ => true
  | .error _ => false

/-- Did the call fail with a 400 validation error? -/
def isBadRequest {α : Type} : Except ApiError α → Bool
  | .error (.badRequest _) => true
  | _ => false

/-- The result string returned by a resolve call, when it succeeded. -/
def resolveResult (x : Store × Except ApiError ResolveResponse) : Option String :=
  match x.2 with
  | .ok r => some r.result
  | .error _ => none

/-- The result field persisted on a stored challenge document. -/
def storedResult (s : Store) (cid : String) : Option String :=
  (s.challenges cid).bind (fun c => c.result)

/-- A completed challenge sent by alice that ended in a match. -/
def cSentMatch : ChallengeDoc :=
  { description := "d", from_user := "alice", to_user := "bob",
    status := "completed", result := some "match", created_at := 0, updated_at := 0 }

/-- A completed challenge sent by alice that ended in no match. -/
def cSentNoMatch : ChallengeDoc := { cSentMatch with result := some "no_match" }

/-- A completed matching challenge received by alice. -/
def cRecvMatch : ChallengeDoc :=
  { cSentMatch with from_user := "bob", to_user := "alice" }

/-! ## Theorems -/

/-- Helper: lexicographic comparison of the two concrete user ids. -/
theorem alice_le_bob : ("alice" : String) ≤ "bob" := by
  rw [String.le_iff_toList_le]
  decide

/-- Helper: the concrete sorted pair key of alice and bob. -/
theorem pairKey_alice_bob : pairKey "alice" "bob" = "alice_bob" := by
  rw [pairKey, min_eq_left alice_le_bob, max_eq_right alice_le_bob]
  rfl

/-- C1 counterexample: resolving a challenge whose status is `rejected`
(not `accepted`) does NOT fail: the call succeeds and the stored status
becomes `completed`, so the transition rejected to completed is reachable,
contradicting the claim that Resolve fails on a non-accepted challenge. -/
theorem resolve_ignores_status_counterexample :
    (resolveChallenge (storeWith "c1" chRejected) "c1"
        [("alice", 3), ("bob", 4)] "alice" 5).2
      = .ok { challenge_id := "c1", result := "no_match",
              numbers := [("alice", 3), ("bob", 4)], resolved_at := 5 }
    ∧ ((resolveChallenge (storeWith "c1" chRejected) "c1"
          [("alice", 3), ("bob", 4)] "alice" 5).1.challenges "c1").map
        ChallengeDoc.status = some "completed" := by
  constructor <;> rfl

/-- C1 (amended): Respond does fail (400, invalid state) whenever the
challenge is not pending, leaving the store unchanged, so Respond alone
only realizes pending to accepted/rejected; but Resolve performs no
status check at all: on any existing challenge, whatever its current
status, a participant submitting a valid numbers map succeeds and the
stored status becomes completed. -/
theorem respond_checks_pending_resolve_does_not
    (s : Store) (cid uid : String) (ch : ChallengeDoc)
    (req : ChallengeResponseReq) (now : Nat)
    (numbers : List (String × Int))
    (hch : s.challenges cid = some ch)
    (hto : ch.to_user = uid)
    (hlen : numbers.length = 2)
    (hks : keySetMatches (numbers.map Prod.fst) ch.from_user ch.to_user = true) :
    (ch.status ≠ "pending" →
      respondToChallenge s cid req uid now
        = (s, .error (.badRequest "Challenge is no longer pending")))
    ∧ exceptOk (resolveChallenge s cid numbers uid now).2 = true
    ∧ ((resolveChallenge s cid numbers uid now).1.challenges cid).map
        ChallengeDoc.status = some "completed" := by
  have hforb : ¬ (ch.from_user ≠ uid ∧ ch.to_user ≠ uid) := by
    intro h; exact h.2 hto
  refine ⟨?_, ?_, ?_⟩
  · intro hst
    simp [respondToChallenge, hch, hto, hst]
  · simp [resolveChallenge, hch, hforb, hlen, hks, exceptOk]
  · simp [resolveChallenge, hch, hforb, hlen, hks]

/-- C1 witness: the amended statement at concrete challenges in every
prior status: a rejected, a still-pending and an already-completed
challenge all resolve successfully to status completed, while Respond
fails on the two non-pending ones. -/
theorem respond_checks_pending_resolve_does_not_witness :
    respondToChallenge (storeWith "c1" chRejected) "c1" reqAccept "bob" 9
      = (storeWith "c1" chRejected, .error (.badRequest "Challenge is no longer pending"))
    ∧ exceptOk (resolveChallenge (storeWith "c1" chRejected) "c1"
        [("alice", 3), ("bob", 4)] "bob" 9).2 = true
    ∧ ((resolveChallenge (storeWith "c1" chRejected) "c1"
        [("alice", 3), ("bob", 4)] "bob" 9).1.challenges "c1").map
        ChallengeDoc.status = some "completed"
    ∧ exceptOk (resolveChallenge (storeWith "c1" chPending) "c1"
        [("alice", 3), ("bob", 4)] "bob" 9).2 = true
    ∧ ((resolveChallenge (storeWith "c1" chPending) "c1"
        [("alice", 3), ("bob", 4)] "bob" 9).1.challenges "c1").map
        ChallengeDoc.status = some "completed"
    ∧ respondToChallenge (storeWith "c1" chCompleted) "c1" reqAccept "bob" 9
      = (storeWith "c1" chCompleted, .error (.badRequest "Challenge is no longer pending"))
    ∧ exceptOk (resolveChallenge (storeWith "c1" chCompleted) "c1"
        [("alice", 3), ("bob", 4)] "bob" 9).2 = true
    ∧ ((resolveChallenge (storeWith "c1" chCompleted) "c1"
        [("alice", 3), ("bob", 4)] "bob" 9).1.challenges "c1").map
        ChallengeDoc.status = some "completed" :=
  let hr := respond_checks_pending_resolve_does_not (storeWith "c1" chRejected) "c1"
    "bob" chRejected reqAccept 9 [("alice", 3), ("bob", 4)] rfl rfl rfl (by decide)
  let hp := respond_checks_pending_resolve_does_not (storeWith "c1" chPending) "c1"
    "bob" chPending reqAccept 9 [("alice", 3), ("bob", 4)] rfl rfl rfl (by decide)
  let hc := respond_checks_pending_resolve_does_not (storeWith "c1" chCompleted) "c1"
    "bob" chCompleted reqAccept 9 [("alice", 3), ("bob", 4)] rfl rfl rfl (by decide)
  ⟨hr.1 (by decide), hr.2.1, hr.2.2, hp.2.1, hp.2.2,
   hc.1 (by decide), hc.2.1, hc.2.2⟩

/-- C2 counterexample: on an accepted challenge, resolving the matching
pair (alice 5, bob 5) succeeds with result match, yet the per-user
aggregate for alice afterwards does not exist at all: `matches_won` is
not 1, because resolve never invokes the statistics aggregator. -/
theorem resolve_no_aggregation_counterexample :
    resolveResult (resolveChallenge (storeWith "c1" chAccepted) "c1"
        [("alice", 5), ("bob", 5)] "alice" 10) = some "match"
    ∧ getUserStats (resolveChallenge (storeWith "c1" chAccepted) "c1"
        [("alice", 5), ("bob", 5)] "alice" 10).1 "alice" = none := by
  constructor <;> rfl

/-- C2 (amended): Resolve triggers no statistics aggregation: it changes
at most the challenges collection, leaving every aggregate collection
(user, result history, global, number, range, interaction, pair) exactly
as it was.  The per-user aggregate reaches `matches_won` 1 for alice only
when `GameStatsService.create_challenge_result` is invoked separately
with the completed result designating alice as winner. -/
theorem resolve_leaves_aggregates_untouched
    (s : Store) (cid : String) (numbers : List (String × Int))
    (uid : String) (now : Nat) :
    (resolveChallenge s cid numbers uid now).1
      = { s with challenges := (resolveChallenge s cid numbers uid now).1.challenges }
    ∧ (getUserStats (createChallengeResult []
          (resolveChallenge (storeWith "c1" chAccepted) "c1"
            [("alice", 5), ("bob", 5)] "alice" 10).1 rMatch clk1).1 "alice").map
        UserStatsDoc.matches_won = some 1 := by
  constructor
  · unfold resolveChallenge
    cases s.challenges cid with
    | none => rfl
    | some ch =>
      dsimp only
      split
      · rfl
      · split
        · rfl
        · split
          · rfl
          · rfl
  · rfl

/-- C3: for every resolve call that passes validation (a two-entry
numbers dict with distinct keys whose key set is exactly the two
participants, holding `nf` for the sender and `nt` for the recipient),
the returned result and the persisted result are `match` exactly when
the two submitted numbers are equal — exact integer equality. -/
theorem resolve_result_match_iff
    (s : Store) (cid uid : String) (ch : ChallengeDoc) (now : Nat)
    (nf nt : Int) (numbers : List (String × Int))
    (hch : s.challenges cid = some ch)
    (hnodup : (numbers.map Prod.fst).Nodup)
    (hlen : numbers.length = 2)
    (hks : keySetMatches (numbers.map Prod.fst) ch.from_user ch.to_user = true)
    (hf : numbers.lookup ch.from_user = some nf)
    (ht : numbers.lookup ch.to_user = some nt)
    (huid : ch.from_user = uid ∨ ch.to_user = uid) :
    (resolveResult (resolveChallenge s cid numbers uid now) = some "match" ↔ nf = nt)
    ∧ (storedResult (resolveChallenge s cid numbers uid now).1 cid = some "match"
        ↔ nf = nt) := by
  obtain ⟨⟨k1, v1⟩, ⟨k2, v2⟩, rfl⟩ := List.length_eq_two.mp hlen
  have hk12 : k1 ≠ k2 := by
    simp only [List.map_cons, List.map_nil, List.nodup_cons, List.mem_singleton] at hnodup
    exact hnodup.1
  have hks2 := hks
  simp only [keySetMatches, List.map_cons, List.map_nil, List.all_cons, List.all_nil,
    Bool.and_true, Bool.and_eq_true, Bool.or_eq_true, beq_iff_eq] at hks2
  obtain ⟨⟨⟨hk1, hk2⟩, -⟩, -⟩ := hks2
  have hforb : ¬ (ch.from_user ≠ uid ∧ ch.to_user ≠ uid) := by
    rcases huid with h | h
    · intro hh; exact hh.1 h
    · intro hh; exact hh.2 h
  have hksL : keySetMatches [k1, k2] ch.from_user ch.to_user = true := by
    simpa using hks
  have hcall2 : (resolveChallenge s cid [(k1, v1), (k2, v2)] uid now).2
      = .ok { challenge_id := cid
              result := if (v1 == v2) then "match" else "no_match"
              numbers := [(k1, v1), (k2, v2)]
              resolved_at := now } := by
    simp [resolveChallenge, hch, hforb, hksL]
  have hcall1 : ((resolveChallenge s cid [(k1, v1), (k2, v2)] uid now).1).challenges cid
      = some { ch with
          status := "completed"
          numbers := some [(k1, v1), (k2, v2)]
          result := some (if (v1 == v2) then "match" else "no_match")
          completed_at := some now
          updated_at := now } := by
    simp [resolveChallenge, hch, hforb, hksL]
  have hmain : (v1 = nf ∧ v2 = nt) ∨ (v1 = nt ∧ v2 = nf) := by
    rcases hk1 with h1 | h1 <;> rcases hk2 with h2 | h2
    · exact absurd (h1.trans h2.symm) hk12
    · left
      constructor
      · rw [← h1] at hf
        simpa [List.lookup] using hf
      · rw [← h2] at ht
        have hne21 : (k2 == k1) = false := by
          simp [beq_eq_false_iff_ne]
          exact fun e => hk12 e.symm
        simpa [List.lookup, hne21] using ht
    · right
      constructor
      · rw [← h1] at ht
        simpa [List.lookup] using ht
      · rw [← h2] at hf
        have hne21 : (k2 == k1) = false := by
          simp [beq_eq_false_iff_ne]
          exact fun e => hk12 e.symm
        simpa [List.lookup, hne21] using hf
    · exact absurd (h1.trans h2.symm) hk12
  have hiff : (v1 = v2) ↔ (nf = nt) := by
    rcases hmain with ⟨rfl, rfl⟩ | ⟨rfl, rfl⟩
    · exact Iff.rfl
    · exact eq_comm
  constructor
  · unfold resolveResult
    rw [hcall2]
    by_cases hv : v1 = v2 <;> simp [hv, ← hiff]
  · unfold storedResult
    rw [hcall1]
    by_cases hv : v1 = v2 <;> simp [hv, ← hiff]

/-- C3 witness: on the accepted alice/bob challenge, (7, 7) resolves to
match and (7, 8) resolves to no-match. -/
theorem resolve_result_match_iff_witness :
    ((resolveResult (resolveChallenge (storeWith "c1" chAccepted) "c1"
        [("alice", 7), ("bob", 7)] "alice" 10) = some "match" ↔ (7 : Int) = 7)
      ∧ (storedResult (resolveChallenge (storeWith "c1" chAccepted) "c1"
          [("alice", 7), ("bob", 7)] "alice" 10).1 "c1" = some "match" ↔ (7 : Int) = 7))
    ∧ ((resolveResult (resolveChallenge (storeWith "c1" chAccepted) "c1"
        [("alice", 7), ("bob", 8)] "alice" 10) = some "match" ↔ (7 : Int) = 8)
      ∧ (storedResult (resolveChallenge (storeWith "c1" chAccepted) "c1"
          [("alice", 7), ("bob", 8)] "alice" 10).1 "c1" = some "match" ↔ (7 : Int) = 8)) :=
  ⟨resolve_result_match_iff (storeWith "c1" chAccepted) "c1" "alice" chAccepted 10
      7 7 [("alice", 7), ("bob", 7)] rfl (by decide) rfl (by decide) rfl rfl (Or.inl rfl),
   resolve_result_match_iff (storeWith "c1" chAccepted) "c1" "alice" chAccepted 10
      7 8 [("alice", 7), ("bob", 8)] rfl (by decide) rfl (by decide) rfl rfl (Or.inl rfl)⟩

/-- C4: a resolve call on an existing challenge by a participant whose
numbers map does not have exactly two entries, or whose key set is not
exactly the two participants, fails with a 400 validation error and
returns the store unchanged: the challenge keeps its prior state and no
aggregate is touched. -/
theorem resolve_invalid_numbers_rejected
    (s : Store) (cid uid : String) (ch : ChallengeDoc) (now : Nat)
    (numbers : List (String × Int))
    (hch : s.challenges cid = some ch)
    (huid : ch.from_user = uid ∨ ch.to_user = uid)
    (hbad : numbers.length ≠ 2
          ∨ keySetMatches (numbers.map Prod.fst) ch.from_user ch.to_user = false) :
    (resolveChallenge s cid numbers uid now).1 = s
    ∧ isBadRequest (resolveChallenge s cid numbers uid now).2 = true := by
  have hforb : ¬ (ch.from_user ≠ uid ∧ ch.to_user ≠ uid) := by
    rcases huid with h | h
    · intro hh; exact hh.1 h
    · intro hh; exact hh.2 h
  rcases hbad with h | h
  · constructor <;> simp [resolveChallenge, hch, hforb, h, isBadRequest]
  · by_cases hl : numbers.length = 2
    · constructor <;> simp [resolveChallenge, hch, hforb, hl, h, isBadRequest]
    · constructor <;> simp [resolveChallenge, hch, hforb, hl, isBadRequest]

/-- C4 witness: submitting only alice's number, or numbers keyed by a
non-participant, is rejected with 400 and the store is unchanged. -/
theorem resolve_invalid_numbers_rejected_witness :
    ((resolveChallenge (storeWith "c1" chAccepted) "c1" [("alice", 3)] "alice" 10).1
        = storeWith "c1" chAccepted
      ∧ isBadRequest (resolveChallenge (storeWith "c1" chAccepted) "c1"
          [("alice", 3)] "alice" 10).2 = true)
    ∧ ((resolveChallenge (storeWith "c1" chAccepted) "c1"
          [("alice", 3), ("carol", 4)] "alice" 10).1 = storeWith "c1" chAccepted
      ∧ isBadRequest (resolveChallenge (storeWith "c1" chAccepted) "c1"
          [("alice", 3), ("carol", 4)] "alice" 10).2 = true) :=
  ⟨resolve_invalid_numbers_rejected (storeWith "c1" chAccepted) "c1" "alice"
      chAccepted 10 [("alice", 3)] rfl (Or.inl rfl) (Or.inl (by decide)),
   resolve_invalid_numbers_rejected (storeWith "c1" chAccepted) "c1" "alice"
      chAccepted 10 [("alice", 3), ("carol", 4)] rfl (Or.inl rfl) (Or.inr (by decide))⟩

/-- C7: the player-pair record is keyed by the lexicographically sorted
pair of ids, so the key is the same whichever participant initiated, and
an update for a result between the two users (in either direction)
touches no key other than that sorted-pair key. -/
theorem player_pairs_symmetric
    (f : FailSet) (s : Store) (r rSwap : ChallengeResultRec) (k : String)
    (hfrom : rSwap.from_user = r.to_user) (hto : rSwap.to_user = r.from_user)
    (hk : k ≠ pairKey r.from_user r.to_user) :
    pairKey r.from_user r.to_user = pairKey r.to_user r.from_user
    ∧ (updatePlayerPairs f s r).playerPairs k = s.playerPairs k
    ∧ (updatePlayerPairs f s rSwap).playerPairs k = s.playerPairs k := by
  have hsymm : pairKey r.from_user r.to_user = pairKey r.to_user r.from_user := by
    simp [pairKey, min_comm, max_comm]
  have hk2 : k ≠ pairKey rSwap.from_user rSwap.to_user := by
    rw [hfrom, hto, ← hsymm]
    exact hk
  refine ⟨hsymm, ?_, ?_⟩
  · show playerPairsUpdate f s.playerPairs r k = s.playerPairs k
    unfold playerPairsUpdate
    split
    · rfl
    · exact if_neg hk
  · show playerPairsUpdate f s.playerPairs rSwap k = s.playerPairs k
    unfold playerPairsUpdate
    split
    · rfl
    · exact if_neg hk2

/-- C7 witness: a match initiated by alice and one initiated by bob are
keyed identically, and neither run touches the unrelated key x. -/
theorem player_pairs_symmetric_witness :
    pairKey rMatch.from_user rMatch.to_user = pairKey rMatch.to_user rMatch.from_user
    ∧ (updatePlayerPairs [] emptyStore rMatch).playerPairs "x"
        = emptyStore.playerPairs "x"
    ∧ (updatePlayerPairs [] emptyStore rMatchSwap).playerPairs "x"
        = emptyStore.playerPairs "x" :=
  player_pairs_symmetric [] emptyStore rMatch rMatchSwap "x" rfl rfl
    (by rw [show pairKey rMatch.from_user rMatch.to_user = "alice_bob" from pairKey_alice_bob]; decide)

/-- C8 counterexample: a rejection without a range does NOT succeed: the
`ChallengeResponse` schema declares `range` as a required field, so the
request fails validation even when `accepted` is false. -/
theorem reject_without_range_counterexample :
    parseChallengeResponse none (some false)
      = .error (.badRequest "field required: range") := rfl

/-- C8 (amended): on Respond by the recipient of a pending challenge, a
range is required regardless of accept or reject (a request without one
fails validation), and a supplied range must satisfy 1 le min lt max le
100; with a valid body, accept sets status accepted (storing the range)
and reject sets status rejected. -/
theorem respond_range_required_and_validated
    (s : Store) (cid uid : String) (ch : ChallengeDoc)
    (acceptedField : Option Bool) (acc : Bool) (a b mn mx : Int) (now : Nat)
    (hch : s.challenges cid = some ch) (hto : ch.to_user = uid)
    (hst : ch.status = "pending") :
    parseChallengeResponse none acceptedField
      = .error (.badRequest "field required: range")
    ∧ (exceptOk (parseChallengeResponse (some (a, b)) (some acc)) = true
        ↔ (1 ≤ a ∧ a < b ∧ b ≤ 100))
    ∧ (respondToChallenge s cid { range := (mn, mx), accepted := true } uid now).2
        = .ok { ch with status := "accepted", range := some (mn, mx), updated_at := now }
    ∧ ((respondToChallenge s cid { range := (mn, mx), accepted := true } uid now).1.challenges
        cid).map ChallengeDoc.status = some "accepted"
    ∧ (respondToChallenge s cid { range := (mn, mx), accepted := false } uid now).2
        = .ok { ch with status := "rejected", updated_at := now }
    ∧ ((respondToChallenge s cid { range := (mn, mx), accepted := false } uid now).1.challenges
        cid).map ChallengeDoc.status = some "rejected" := by
  have hbv : challengeRangeValid a b = true ↔ (1 ≤ a ∧ a < b ∧ b ≤ 100) := by
    simp only [challengeRangeValid, Bool.and_eq_true, decide_eq_true_eq]
    omega
  refine ⟨?_, ?_, ?_, ?_, ?_, ?_⟩
  · cases acceptedField <;> rfl
  · rw [← hbv]
    simp only [parseChallengeResponse]
    by_cases hv : challengeRangeValid a b = true <;> simp [hv, exceptOk]
  · simp [respondToChallenge, hch, hto, hst]
  · simp [respondToChallenge, hch, hto, hst]
  · simp [respondToChallenge, hch, hto, hst]
  · simp [respondToChallenge, hch, hto, hst]

/-- C8 witness: the amended statement at the concrete pending challenge,
including the boundary body (5, 5) whose parse condition is false because
min is not less than max. -/
theorem respond_range_required_and_validated_witness :
    parseChallengeResponse none (some true)
      = .error (.badRequest "field required: range")
    ∧ (exceptOk (parseChallengeResponse (some ((5 : Int), (5 : Int))) (some true)) = true
        ↔ ((1 : Int) ≤ 5 ∧ (5 : Int) < 5 ∧ (5 : Int) ≤ 100))
    ∧ (respondToChallenge (storeWith "c1" chPending) "c1"
        { range := (1, 10), accepted := true } "bob" 4).2
        = .ok { chPending with status := "accepted", range := some (1, 10), updated_at := 4 }
    ∧ ((respondToChallenge (storeWith "c1" chPending) "c1"
        { range := (1, 10), accepted := true } "bob" 4).1.challenges "c1").map
        ChallengeDoc.status = some "accepted"
    ∧ (respondToChallenge (storeWith "c1" chPending) "c1"
        { range := (1, 10), accepted := false } "bob" 4).2
        = .ok { chPending with status := "rejected", updated_at := 4 }
    ∧ ((respondToChallenge (storeWith "c1" chPending) "c1"
        { range := (1, 10), accepted := false } "bob" 4).1.challenges "c1").map
        ChallengeDoc.status = some "rejected" :=
  respond_range_required_and_validated (storeWith "c1" chPending) "c1" "bob"
    chPending (some true) true 5 5 1 10 4 rfl rfl rfl

/-- C9: the number-stats update changes exactly the documents of the two
selected numbers: `times_selected` grows by the multiplicity of the
number among the two submissions (twice when both players picked it),
`last_selected` is set to the completion time, every other field — in
particular `success_rate` — keeps its prior (or freshly defaulted)
value, every other number document is untouched, and no other collection
of the store is touched. -/
theorem number_stats_exact_effect (s : Store) (r : ChallengeResultRec) (n : Int) :
    (updateNumberStats [] s r).numberStats n
      = (if n = r.from_user_number ∨ n = r.to_user_number then
          some { numberDocOr s.numberStats n with
                 times_selected := (numberDocOr s.numberStats n).times_selected
                   + [r.from_user_number, r.to_user_number].count n
                 last_selected := some r.completed_at }
         else s.numberStats n)
    ∧ updateNumberStats [] s r
        = { s with numberStats := (updateNumberStats [] s r).numberStats } := by
  have hstep : ∀ (m : Int → Option NumberStatsDoc) (x : Int) (c : Nat) (k : Int),
      stepNumberStats m x c k
        = if k = x then
            some { numberDocOr m x with
                   times_selected := (numberDocOr m x).times_selected + 1
                   last_selected := some c }
          else m k := fun _ _ _ _ => rfl
  have hmain : (updateNumberStats [] s r).numberStats n
      = stepNumberStats (stepNumberStats s.numberStats r.from_user_number r.completed_at)
          r.to_user_number r.completed_at n := rfl
  constructor
  · rw [hmain, hstep, hstep]
    by_cases h2 : n = r.to_user_number
    · by_cases h1 : n = r.from_user_number
      · have hft : r.from_user_number = r.to_user_number := h1.symm.trans h2
        have hdoc : numberDocOr
            (stepNumberStats s.numberStats r.from_user_number r.completed_at)
            r.to_user_number
            = { numberDocOr s.numberStats r.to_user_number with
                times_selected := (numberDocOr s.numberStats r.to_user_number).times_selected + 1
                last_selected := some r.completed_at } := by
          rw [numberDocOr, hstep, if_pos hft.symm, ← hft]
          rfl
        rw [if_pos h2, hdoc, if_pos (Or.inl h1)]
        simp [List.count_cons, List.count_nil, hft, ← h2]
      · have hne : ¬ r.to_user_number = r.from_user_number := fun e => h1 (h2.trans e)
        have hfn : ¬ r.from_user_number = n := fun e => h1 e.symm
        have hdoc : numberDocOr
            (stepNumberStats s.numberStats r.from_user_number r.completed_at)
            r.to_user_number
            = numberDocOr s.numberStats r.to_user_number := by
          rw [numberDocOr, hstep, if_neg hne, numberDocOr]
        rw [if_pos h2, hdoc, if_pos (Or.inr h2)]
        simp [List.count_cons, List.count_nil, ← h2, hfn]
    · by_cases h1 : n = r.from_user_number
      · have htn : ¬ r.to_user_number = n := fun e => h2 e.symm
        rw [if_neg h2, if_pos h1, if_pos (Or.inl h1)]
        simp [List.count_cons, List.count_nil, ← h1, htn]
      · rw [if_neg h2, if_neg h1, if_neg (by tauto)]
  · rfl

/-- C10: the per-user challenge-stats endpoint counts only challenges
the user SENT: appending any challenges whose `from_user` is not the
user (in particular challenges the user received) changes none of the
counters, and among the sent challenges `matches_won` counts exactly the
ones whose result field is `match` and `matches_lost` exactly the ones
whose result field is `no_match` — the documents carry no winner
designation at all. -/
theorem user_stats_count_sent_only
    (chs extra : List ChallengeDoc) (u : String)
    (hextra : ∀ x ∈ extra, x.from_user ≠ u) :
    getUserChallengeStats (chs ++ extra) u = getUserChallengeStats chs u
    ∧ (getUserChallengeStats chs u).matches_won
        = (chs.filter (fun x => x.result == some "match" && x.from_user == u)).length
    ∧ (getUserChallengeStats chs u).matches_lost
        = (chs.filter (fun x => x.result == some "no_match" && x.from_user == u)).length := by
  have hnil : extra.filter (fun x => x.from_user == u) = [] :=
    List.filter_eq_nil_iff.mpr (by
      intro a ha
      simpa using hextra a ha)
  refine ⟨?_, ?_, ?_⟩
  · unfold getUserChallengeStats
    rw [List.filter_append, hnil, List.append_nil]
  · simp [getUserChallengeStats, List.filter_filter]
  · simp [getUserChallengeStats, List.filter_filter]

/-- C10 witness: with one sent match, one sent no-match and one received
match, the received challenge contributes nothing and the counters are
one match won, one match lost. -/
theorem user_stats_count_sent_only_witness :
    getUserChallengeStats ([cSentMatch, cSentNoMatch] ++ [cRecvMatch]) "alice"
      = getUserChallengeStats [cSentMatch, cSentNoMatch] "alice"
    ∧ (getUserChallengeStats [cSentMatch, cSentNoMatch] "alice").matches_won
        = ([cSentMatch, cSentNoMatch].filter
            (fun x => x.result == some "match" && x.from_user == "alice")).length
    ∧ (getUserChallengeStats [cSentMatch, cSentNoMatch] "alice").matches_lost
        = ([cSentMatch, cSentNoMatch].filter
            (fun x => x.result == some "no_match" && x.from_user == "alice")).length :=
  user_stats_count_sent_only [cSentMatch, cSentNoMatch] [cRecvMatch] "alice"
    (by decide)

/-- Helper: the aggregator never touches the challenges collection. -/
theorem ccr_challenges (f : FailSet) (s : Store) (r : ChallengeResultRec)
    (clk : Clock) :
    (createChallengeResult f s r clk).1.challenges = s.challenges := by
  by_cases h1 : opFails f "challenge_results" <;>
    by_cases h2 : opFails f "global_game_stats" <;>
      simp [createChallengeResult, updateGlobalStats, h1, h2]

/-- Helper: the challenge-result record written by the aggregator. -/
theorem ccr_challengeResults (f : FailSet) (s : Store) (r : ChallengeResultRec)
    (clk : Clock) :
    (createChallengeResult f s r clk).1.challengeResults
      = if opFails f "challenge_results" then s.challengeResults
        else fun k => if k = r.challenge_id then some r else s.challengeResults k := by
  by_cases h1 : opFails f "challenge_results" <;>
    by_cases h2 : opFails f "global_game_stats" <;>
      simp [createChallengeResult, updateGlobalStats, h1, h2]

/-- Helper: the number-selection records written by the aggregator. -/
theorem ccr_numberSelections (f : FailSet) (s : Store) (r : ChallengeResultRec)
    (clk : Clock) :
    (createChallengeResult f s r clk).1.numberSelections
      = if opFails f "challenge_results" then s.numberSelections
        else numberSelectionsUpdate f s.numberSelections r := by
  by_cases h1 : opFails f "challenge_results" <;>
    by_cases h2 : opFails f "global_game_stats" <;>
      simp [createChallengeResult, updateGlobalStats, h1, h2]

/-- Helper: the user-stats map produced by the aggregator. -/
theorem ccr_userStats (f : FailSet) (s : Store) (r : ChallengeResultRec)
    (clk : Clock) :
    (createChallengeResult f s r clk).1.userStats
      = if opFails f "challenge_results" then s.userStats
        else updateUserStats f s.userStats r clk.now := by
  by_cases h1 : opFails f "challenge_results" <;>
    by_cases h2 : opFails f "global_game_stats" <;>
      simp [createChallengeResult, updateGlobalStats, h1, h2]

/-- Helper: the global-stats document produced by the aggregator. -/
theorem ccr_globalStats (f : FailSet) (s : Store) (r : ChallengeResultRec)
    (clk : Clock) :
    (createChallengeResult f s r clk).1.globalStats
      = if opFails f "challenge_results" then s.globalStats
        else if opFails f "global_game_stats" then s.globalStats
        else some (stepGlobalStats (s.globalStats.getD (newGlobalStats clk.now)) r clk) := by
  by_cases h1 : opFails f "challenge_results" <;>
    by_cases h2 : opFails f "global_game_stats" <;>
      simp [createChallengeResult, updateGlobalStats, h1, h2]

/-- Helper: the number-stats map produced by the aggregator.  The update
runs only when the global-stats read/write did not fail, because the
code invokes it inside the same try block after the global write. -/
theorem ccr_numberStats (f : FailSet) (s : Store) (r : ChallengeResultRec)
    (clk : Clock) :
    (createChallengeResult f s r clk).1.numberStats
      = if opFails f "challenge_results" then s.numberStats
        else if opFails f "global_game_stats" then s.numberStats
        else numberStatsUpdate f s.numberStats r := by
  by_cases h1 : opFails f "challenge_results" <;>
    by_cases h2 : opFails f "global_game_stats" <;>
      simp [createChallengeResult, updateGlobalStats, h1, h2]

/-- Helper: the range-stats map produced by the aggregator (same
nesting as the number stats). -/
theorem ccr_rangeStats (f : FailSet) (s : Store) (r : ChallengeResultRec)
    (clk : Clock) :
    (createChallengeResult f s r clk).1.rangeStats
      = if opFails f "challenge_results" then s.rangeStats
        else if opFails f "global_game_stats" then s.rangeStats
        else rangeStatsUpdate f s.rangeStats r := by
  by_cases h1 : opFails f "challenge_results" <;>
    by_cases h2 : opFails f "global_game_stats" <;>
      simp [createChallengeResult, updateGlobalStats, h1, h2]

/-- Helper: the player-interaction map produced by the aggregator (same
nesting as the number stats). -/
theorem ccr_playerInteractions (f : FailSet) (s : Store)
    (r : ChallengeResultRec) (clk : Clock) :
    (createChallengeResult f s r clk).1.playerInteractions
      = if opFails f "challenge_results" then s.playerInteractions
        else if opFails f "global_game_stats" then s.playerInteractions
        else playerInteractionsUpdate f s.playerInteractions r := by
  by_cases h1 : opFails f "challenge_results" <;>
    by_cases h2 : opFails f "global_game_stats" <;>
      simp [createChallengeResult, updateGlobalStats, h1, h2]

/-- Helper: the player-pair map produced by the aggregator (same nesting
as the number stats). -/
theorem ccr_playerPairs (f : FailSet) (s : Store) (r : ChallengeResultRec)
    (clk : Clock) :
    (createChallengeResult f s r clk).1.playerPairs
      = if opFails f "challenge_results" then s.playerPairs
        else if opFails f "global_game_stats" then s.playerPairs
        else playerPairsUpdate f s.playerPairs r := by
  by_cases h1 : opFails f "challenge_results" <;>
    by_cases h2 : opFails f "global_game_stats" <;>
      simp [createChallengeResult, updateGlobalStats, h1, h2]

/-- C5 counterexample: when the global-stats document read/write fails,
the number-stats update (whose own collection is perfectly healthy) does
NOT run: for the concrete matching result both-picked-5, the no-failure
run records the number 5 twice, while the run with only
`global_game_stats` failing leaves the number-5 document nonexistent —
the global-stats failure is not isolated from the other updates. -/
theorem global_failure_not_isolated_counterexample :
    (createChallengeResult ["global_game_stats"] emptyStore rMatch clk1).2 = true
    ∧ (createChallengeResult ["global_game_stats"] emptyStore rMatch clk1).1.numberStats 5
        = none
    ∧ (createChallengeResult [] emptyStore rMatch clk1).1.numberStats 5
        = some { number := 5, times_selected := 2, success_rate := 0,
                 last_selected := some 7 } :=
  ⟨rfl, rfl, rfl⟩

/-- C5 (amended): a failure confined to any one of the user, number,
range, player-interaction or player-pair updates is isolated — every
other aggregate comes out exactly as in the failure-free run, the failing
aggregate keeps its prior state, and the persisted ChallengeResult is
not rolled back; but a failure of the global-stats document read/write
is NOT isolated: it also skips the number, range, player-interaction and
player-pair updates (they run inside the same protected block after the
global write), while still keeping the user-stats update and the
persisted ChallengeResult. -/
theorem stats_aggregator_failure_isolation
    (s : Store) (r : ChallengeResultRec) (clk : Clock) :
    ((createChallengeResult ["user_game_stats"] s r clk).1.userStats = s.userStats
      ∧ (createChallengeResult ["user_game_stats"] s r clk).1.globalStats
          = (createChallengeResult [] s r clk).1.globalStats
      ∧ (createChallengeResult ["user_game_stats"] s r clk).1.numberStats
          = (createChallengeResult [] s r clk).1.numberStats
      ∧ (createChallengeResult ["user_game_stats"] s r clk).1.rangeStats
          = (createChallengeResult [] s r clk).1.rangeStats
      ∧ (createChallengeResult ["user_game_stats"] s r clk).1.playerInteractions
          = (createChallengeResult [] s r clk).1.playerInteractions
      ∧ (createChallengeResult ["user_game_stats"] s r clk).1.playerPairs
          = (createChallengeResult [] s r clk).1.playerPairs
      ∧ (createChallengeResult ["user_game_stats"] s r clk).1.challengeResults
          r.challenge_id = some r)
    ∧ ((createChallengeResult ["number_stats"] s r clk).1.numberStats = s.numberStats
      ∧ (createChallengeResult ["number_stats"] s r clk).1.userStats
          = (createChallengeResult [] s r clk).1.userStats
      ∧ (createChallengeResult ["number_stats"] s r clk).1.globalStats
          = (createChallengeResult [] s r clk).1.globalStats
      ∧ (createChallengeResult ["number_stats"] s r clk).1.rangeStats
          = (createChallengeResult [] s r clk).1.rangeStats
      ∧ (createChallengeResult ["number_stats"] s r clk).1.playerInteractions
          = (createChallengeResult [] s r clk).1.playerInteractions
      ∧ (createChallengeResult ["number_stats"] s r clk).1.playerPairs
          = (createChallengeResult [] s r clk).1.playerPairs
      ∧ (createChallengeResult ["number_stats"] s r clk).1.challengeResults
          r.challenge_id = some r)
    ∧ ((createChallengeResult ["range_stats"] s r clk).1.rangeStats = s.rangeStats
      ∧ (createChallengeResult ["range_stats"] s r clk).1.userStats
          = (createChallengeResult [] s r clk).1.userStats
      ∧ (createChallengeResult ["range_stats"] s r clk).1.globalStats
          = (createChallengeResult [] s r clk).1.globalStats
      ∧ (createChallengeResult ["range_stats"] s r clk).1.numberStats
          = (createChallengeResult [] s r clk).1.numberStats
      ∧ (createChallengeResult ["range_stats"] s r clk).1.playerInteractions
          = (createChallengeResult [] s r clk).1.playerInteractions
      ∧ (createChallengeResult ["range_stats"] s r clk).1.playerPairs
          = (createChallengeResult [] s r clk).1.playerPairs
      ∧ (createChallengeResult ["range_stats"] s r clk).1.challengeResults
          r.challenge_id = some r)
    ∧ ((createChallengeResult ["player_interactions"] s r clk).1.playerInteractions
          = s.playerInteractions
      ∧ (createChallengeResult ["player_interactions"] s r clk).1.userStats
          = (createChallengeResult [] s r clk).1.userStats
      ∧ (createChallengeResult ["player_interactions"] s r clk).1.globalStats
          = (createChallengeResult [] s r clk).1.globalStats
      ∧ (createChallengeResult ["player_interactions"] s r clk).1.numberStats
          = (createChallengeResult [] s r clk).1.numberStats
      ∧ (createChallengeResult ["player_interactions"] s r clk).1.rangeStats
          = (createChallengeResult [] s r clk).1.rangeStats
      ∧ (createChallengeResult ["player_interactions"] s r clk).1.playerPairs
          = (createChallengeResult [] s r clk).1.playerPairs
      ∧ (createChallengeResult ["player_interactions"] s r clk).1.challengeResults
          r.challenge_id = some r)
    ∧ ((createChallengeResult ["player_pairs"] s r clk).1.playerPairs = s.playerPairs
      ∧ (createChallengeResult ["player_pairs"] s r clk).1.userStats
          = (createChallengeResult [] s r clk).1.userStats
      ∧ (createChallengeResult ["player_pairs"] s r clk).1.globalStats
          = (createChallengeResult [] s r clk).1.globalStats
      ∧ (createChallengeResult ["player_pairs"] s r clk).1.numberStats
          = (createChallengeResult [] s r clk).1.numberStats
      ∧ (createChallengeResult ["player_pairs"] s r clk).1.rangeStats
          = (createChallengeResult [] s r clk).1.rangeStats
      ∧ (createChallengeResult ["player_pairs"] s r clk).1.playerInteractions
          = (createChallengeResult [] s r clk).1.playerInteractions
      ∧ (createChallengeResult ["player_pairs"] s r clk).1.challengeResults
          r.challenge_id = some r)
    ∧ ((createChallengeResult ["global_game_stats"] s r clk).1.globalStats
          = s.globalStats
      ∧ (createChallengeResult ["global_game_stats"] s r clk).1.numberStats
          = s.numberStats
      ∧ (createChallengeResult ["global_game_stats"] s r clk).1.rangeStats
          = s.rangeStats
      ∧ (createChallengeResult ["global_game_stats"] s r clk).1.playerInteractions
          = s.playerInteractions
      ∧ (createChallengeResult ["global_game_stats"] s r clk).1.playerPairs
          = s.playerPairs
      ∧ (createChallengeResult ["global_game_stats"] s r clk).1.userStats
          = (createChallengeResult [] s r clk).1.userStats
      ∧ (createChallengeResult ["global_game_stats"] s r clk).1.challengeResults
          r.challenge_id = some r) := by
  simp [ccr_userStats, ccr_globalStats, ccr_numberStats, ccr_rangeStats,
    ccr_playerInteractions, ccr_playerPairs, ccr_challengeResults,
    opFails, numberStatsUpdate, rangeStatsUpdate, playerInteractionsUpdate,
    playerPairsUpdate, updateUserStats, updateSingleUserStats]

/-- Helper: the response-time stage does not touch `matches_won`. -/
theorem rt_won (d : UserStatsDoc) (rt : Option Rat) :
    (stepUserRespTimes d rt).matches_won = d.matches_won := by
  cases rt with
  | none => rfl
  | some t =>
    simp only [stepUserRespTimes]
    cases h1 : d.average_response_time <;> simp only [h1] <;>
      cases h2 : d.fastest_response_time <;> simp only [h2] <;>
        first
        | rfl
        | (split <;> rfl)

/-- Helper: the response-time stage does not touch `matches_lost`. -/
theorem rt_lost (d : UserStatsDoc) (rt : Option Rat) :
    (stepUserRespTimes d rt).matches_lost = d.matches_lost := by
  cases rt with
  | none => rfl
  | some t =>
    simp only [stepUserRespTimes]
    cases h1 : d.average_response_time <;> simp only [h1] <;>
      cases h2 : d.fastest_response_time <;> simp only [h2] <;>
        first
        | rfl
        | (split <;> rfl)

/-- Helper: the response-time stage does not touch `total_challenges`. -/
theorem rt_total (d : UserStatsDoc) (rt : Option Rat) :
    (stepUserRespTimes d rt).total_challenges = d.total_challenges := by
  cases rt with
  | none => rfl
  | some t =>
    simp only [stepUserRespTimes]
    cases h1 : d.average_response_time <;> simp only [h1] <;>
      cases h2 : d.fastest_response_time <;> simp only [h2] <;>
        first
        | rfl
        | (split <;> rfl)

/-- Helper: the response-time stage does not touch `win_rate`. -/
theorem rt_rate (d : UserStatsDoc) (rt : Option Rat) :
    (stepUserRespTimes d rt).win_rate = d.win_rate := by
  cases rt with
  | none => rfl
  | some t =>
    simp only [stepUserRespTimes]
    cases h1 : d.average_response_time <;> simp only [h1] <;>
      cases h2 : d.fastest_response_time <;> simp only [h2] <;>
        first
        | rfl
        | (split <;> rfl)

/-- Helper: the exact effect of one user-stats mutation on the four
counters, assuming the incoming document already satisfies the win-rate
equation (with the 0/0 = 0 convention). -/
theorem stepUserStats_spec (d : UserStatsDoc) (r : ChallengeResultRec)
    (U : String) (c : Bool) (now : Nat)
    (hd : d.win_rate = rateOf d.matches_won d.matches_lost) :
    (stepUserStats d r U c now).matches_won
      = d.matches_won + (if r.result = "match" ∧ r.winner = some U then 1 else 0)
    ∧ (stepUserStats d r U c now).matches_lost
      = d.matches_lost + (if r.result = "match" ∧ ¬ r.winner = some U then 1 else 0)
    ∧ (stepUserStats d r U c now).total_challenges = d.total_challenges + 1
    ∧ (stepUserStats d r U c now).win_rate
      = rateOf (stepUserStats d r U c now).matches_won
          (stepUserStats d r U c now).matches_lost := by
  cases c <;> by_cases hm : r.result = "match" <;>
    by_cases hw : r.winner = some U <;>
      by_cases h0 : d.matches_won + d.matches_lost = 0 <;>
        simp [stepUserStats, rt_won, rt_lost, rt_total, rt_rate,
          hm, hw, h0, rateOf, hd]

/-- Helper: the user-stats update evaluated at a participant: the
document stored for the participant is exactly one mutation step of the
fetched-or-default document, with the creator flag telling whether the
participant initiated. -/
theorem updateUserStats_at (m : String → Option UserStatsDoc)
    (r : ChallengeResultRec) (now : Nat) (U : String)
    (hU : r.from_user = U ∨ r.to_user = U) (hne : r.from_user ≠ r.to_user) :
    updateUserStats [] m r now U
      = some (stepUserStats ((m U).getD (newUserStats U now)) r U
          (r.from_user == U) now) := by
  have hne2 : ¬ r.to_user = r.from_user := fun e => hne e.symm
  have hfb : (r.from_user == r.to_user) = false := by
    simp [beq_eq_false_iff_ne]
    exact hne
  rcases hU with h | h
  · subst h
    simp [updateUserStats, updateSingleUserStats, opFails, hne, hne2]
  · subst h
    simp [updateUserStats, updateSingleUserStats, opFails, hne, hne2, hfb]

/-- Helper: sequential aggregation projects, on the user-stats
collection, to a fold of the user-stats update alone. -/
theorem processResults_userStats (rs : List ChallengeResultRec) (s : Store)
    (clk : Clock) :
    (processResults s clk rs).userStats
      = rs.foldl (fun m r => updateUserStats [] m r clk.now) s.userStats := by
  induction rs generalizing s with
  | nil => rfl
  | cons r rs ih =>
    show (processResults (createChallengeResult [] s r clk).1 clk rs).userStats = _
    rw [ih, ccr_userStats]
    simp [opFails]

/-- Helper: unfolding the win count over the first processed result. -/
theorem winsOf_cons (U : String) (r : ChallengeResultRec)
    (rs : List ChallengeResultRec) :
    winsOf U (r :: rs)
      = (if r.result = "match" ∧ r.winner = some U then 1 else 0) + winsOf U rs := by
  by_cases hp1 : r.result = "match" <;> by_cases hp2 : r.winner = some U <;>
    simp [winsOf, List.filter_cons, hp1, hp2, Nat.add_comm]

/-- Helper: unfolding the loss count over the first processed result. -/
theorem lossesOf_cons (U : String) (r : ChallengeResultRec)
    (rs : List ChallengeResultRec) :
    lossesOf U (r :: rs)
      = (if r.result = "match" ∧ ¬ r.winner = some U then 1 else 0) + lossesOf U rs := by
  by_cases hp1 : r.result = "match" <;> by_cases hp2 : r.winner = some U <;>
    simp [lossesOf, List.filter_cons, hp1, hp2, Nat.add_comm]

/-- Helper: the fold invariant for one user's counters under sequential
aggregation: starting from a stored document satisfying the win-rate
equation, the counters accumulate the wins and losses of the processed
results and the win rate stays the exact ratio. -/
theorem userStats_fold_inv (rs : List ChallengeResultRec) (now : Nat)
    (U : String) (m : String → Option UserStatsDoc) (d : UserStatsDoc)
    (hm : m U = some d)
    (hd : d.win_rate = rateOf d.matches_won d.matches_lost)
    (hpart : ∀ r ∈ rs, (r.from_user = U ∨ r.to_user = U) ∧ r.from_user ≠ r.to_user) :
    ∃ e, (rs.foldl (fun m r => updateUserStats [] m r now) m) U = some e
      ∧ e.matches_won = d.matches_won + winsOf U rs
      ∧ e.matches_lost = d.matches_lost + lossesOf U rs
      ∧ e.total_challenges = d.total_challenges + rs.length
      ∧ e.win_rate = rateOf e.matches_won e.matches_lost := by
  induction rs generalizing m d with
  | nil =>
    exact ⟨d, hm, by simp [winsOf], by simp [lossesOf], rfl, hd⟩
  | cons r rs ih =>
    obtain ⟨hU, hne⟩ := hpart r (List.mem_cons_self r rs)
    have hat := updateUserStats_at m r now U hU hne
    rw [hm] at hat
    simp only [Option.getD_some] at hat
    obtain ⟨s1, s2, s3, s4⟩ := stepUserStats_spec d r U (r.from_user == U) now hd
    obtain ⟨e, he, e1, e2, e3, e4⟩ := ih
      (updateUserStats [] m r now)
      (stepUserStats d r U (r.from_user == U) now) hat s4
      (fun x hx => hpart x (List.mem_cons_of_mem r hx))
    refine ⟨e, he, ?_, ?_, ?_, e4⟩
    · rw [winsOf_cons, e1, s1]
      omega
    · rw [lossesOf_cons, e2, s2]
      omega
    · rw [e3, s3, List.length_cons]
      omega

/-- C6: under sequential aggregation of a nonempty batch of results, all
with distinct participants and all involving user U, the stored user
stats for U end with `matches_won` equal to the number of matches won by
U (result match with U designated winner), `total_challenges` equal to
the number of processed results U participated in, and `win_rate`
exactly `matches_won / (matches_won + matches_lost)` (with the 0/0 = 0
convention matching the untouched initial 0.0). -/
theorem sequential_user_stats_correct
    (rs : List ChallengeResultRec) (U : String) (clk : Clock) (s0 : Store)
    (h0 : s0.userStats U = none)
    (hne : rs ≠ [])
    (hpart : ∀ r ∈ rs, (r.from_user = U ∨ r.to_user = U) ∧ r.from_user ≠ r.to_user) :
    (getUserStats (processResults s0 clk rs) U).map UserStatsDoc.matches_won
        = some (winsOf U rs)
    ∧ (getUserStats (processResults s0 clk rs) U).map UserStatsDoc.matches_lost
        = some (lossesOf U rs)
    ∧ (getUserStats (processResults s0 clk rs) U).map UserStatsDoc.total_challenges
        = some rs.length
    ∧ (getUserStats (processResults s0 clk rs) U).map UserStatsDoc.win_rate
        = some (rateOf (winsOf U rs) (lossesOf U rs)) := by
  cases rs with
  | nil => exact absurd rfl hne
  | cons r rs =>
    obtain ⟨hU, hner⟩ := hpart r (List.mem_cons_self r rs)
    have hgs : getUserStats (processResults s0 clk (r :: rs)) U
        = (r :: rs).foldl (fun m r => updateUserStats [] m r clk.now) s0.userStats U := by
      unfold getUserStats
      rw [processResults_userStats]
    have hat := updateUserStats_at s0.userStats r clk.now U hU hner
    rw [h0] at hat
    simp only [Option.getD_none] at hat
    have hnew : (newUserStats U clk.now).win_rate
        = rateOf (newUserStats U clk.now).matches_won
            (newUserStats U clk.now).matches_lost := by
      simp [newUserStats, rateOf]
    obtain ⟨w1, w2, w3, w4⟩ :=
      stepUserStats_spec (newUserStats U clk.now) r U (r.from_user == U) clk.now hnew
    obtain ⟨e, he, e1, e2, e3, e4⟩ := userStats_fold_inv rs clk.now U
      (updateUserStats [] s0.userStats r clk.now)
      (stepUserStats (newUserStats U clk.now) r U (r.from_user == U) clk.now)
      hat w4 (fun x hx => hpart x (List.mem_cons_of_mem r hx))
    have hW : e.matches_won = winsOf U (r :: rs) := by
      rw [e1, w1, winsOf_cons]
      simp [newUserStats]
    have hL : e.matches_lost = lossesOf U (r :: rs) := by
      rw [e2, w2, lossesOf_cons]
      simp [newUserStats]
    have hT : e.total_challenges = (r :: rs).length := by
      rw [e3, w3, List.length_cons]
      simp [newUserStats]
      omega
    have hR : e.win_rate = rateOf (winsOf U (r :: rs)) (lossesOf U (r :: rs)) := by
      rw [e4, hW, hL]
    rw [hgs]
    rw [show (r :: rs).foldl (fun m r => updateUserStats [] m r clk.now) s0.userStats U
        = some e from he]
    exact ⟨by simp [hW], by simp [hL], by simp [hT], by simp [hR]⟩

/-- C6 witness: alice participates in two sequential completions (one
won match, one no-match): matches_won 1, total 2, win_rate 1/1 = 1. -/
theorem sequential_user_stats_correct_witness :
    (getUserStats (processResults emptyStore clk1 [rMatch, rNoMatch]) "alice").map
        UserStatsDoc.matches_won = some (winsOf "alice" [rMatch, rNoMatch])
    ∧ (getUserStats (processResults emptyStore clk1 [rMatch, rNoMatch]) "alice").map
        UserStatsDoc.matches_lost = some (lossesOf "alice" [rMatch, rNoMatch])
    ∧ (getUserStats (processResults emptyStore clk1 [rMatch, rNoMatch]) "alice").map
        UserStatsDoc.total_challenges = some ([rMatch, rNoMatch].length)
    ∧ (getUserStats (processResults emptyStore clk1 [rMatch, rNoMatch]) "alice").map
        UserStatsDoc.win_rate
        = some (rateOf (winsOf "alice" [rMatch, rNoMatch])
            (lossesOf "alice" [rMatch, rNoMatch])) :=
  sequential_user_stats_correct [rMatch, rNoMatch] "alice" clk1 emptyStore
    rfl (by simp) (by decide)

end WhatsTheChance
